import Mathlib

/-!
# Brand Canonizer — verification of the extraction-pipeline core

A shallow embedding, in Lean 4, of the brand-extraction pipeline:

* `src/pipeline/synthesize.js` — token-to-specification mapping with the
  schema-validation / auto-repair loop (`synthesizeBrandSpec`,
  `fixValidationIssues`);
* `src/pipeline/evaluate.js`   — quality evaluation (`evaluateBrandSpec`,
  `getQualityBand`, `fixEvaluationIssues`);
* `src/pipeline/refine.js`     — quality-gated refinement (`refineBrandSpec`);
* `src/pipeline/orchestrator.js` — stage sequencing, trace and cost
  accounting (`extractBrand`, `extractBrandName`);
* `src/server.js`              — the extraction session kept by the HTTP
  server: the `onProgress` handler, the completion (`then`) handler and the
  rejection (`catch`) handler of `POST /api/extract`.

Modelling conventions:

* JavaScript numbers are modelled as exact rationals (`Rat`); token counts
  and progress percentages as `Nat`.
* JavaScript `a || b` on strings treats `""` as falsy and on numbers treats
  `0` as falsy; the helpers `jsOr…` below reproduce that.
* Absent (`undefined`) object fields are modelled with `Option`.
* External collaborators (browser capture, the three model calls) and the
  Ajv validators compiled from the on-disk JSON schema files (which are not
  part of the translated sources) are inputs of the model, carried by `Env`.
* Errors thrown and caught inside a stage become `Except` values; a thrown
  exception that escapes a function is an `Except.error`.
-/

/-- JavaScript `a || b` where `a` is a string-valued expression that may be
`undefined`: both `none` and `""` fall through to the default. -/
def jsOrStr (a : Option String) (b : String) : String :=
  match a with
  | none => b
  | some s => if s = "" then b else s

/-- JavaScript `a || b` for a present string value (`""` is falsy). -/
def jsOrStr' (a b : String) : String :=
  if a = "" then b else a

/-- JavaScript `a || b` where `a` is a number-valued expression that may be
`undefined`: both `none` and `0` fall through to the default. -/
def jsOrNat (a : Option Nat) (b : Nat) : Nat :=
  match a with
  | none => b
  | some n => if n = 0 then b else n

/-- Leading decimal digits of a string, as a number — the effect of the
JavaScript `parseInt` on the capture group of a regex `(\d+)` match; `none`
when the string does not start with a digit. -/
def leadingNat (s : String) : Option Nat :=
  let ds := s.data.takeWhile Char.isDigit
  if ds.isEmpty then none
  else some (ds.foldl (fun a c => 10 * a + (c.toNat - 48)) 0)

/-- One Ajv validation error, as consumed by the repair code: the instance
path (modelled as its list of JSON-pointer segments, so `"/components/3"`
is `["components", "3"]`) and the violated keyword. -/
structure ValError where
  instancePath : List String
  keyword : String
deriving Repr, DecidableEq, Inhabited

/-- Result shape of `validateAgainstSchema` in `utils/schema-validator.js`. -/
structure ValidationResult where
  valid : Bool
  errors : List ValError
deriving Repr, DecidableEq, Inhabited

/-! ## The synthesized brand specification (`brand_spec.json` shape) -/

/-- A colour token: value plus semantic usage note. -/
structure ColorToken where
  value : String
  usage : String
deriving Repr, DecidableEq, Inhabited

/-- The `neutrals` block of the colour tokens; `gray` is a JS object keyed
by scale steps, modelled as an association list in insertion order. -/
structure Neutrals where
  white : ColorToken
  black : ColorToken
  gray : List (String × ColorToken)
deriving Repr, DecidableEq, Inhabited

/-- The optional `semantic` colour block (success / error / warning). -/
structure SemanticColors where
  success : Option ColorToken
  error : Option ColorToken
  warning : Option ColorToken
deriving Repr, DecidableEq, Inhabited

/-- The `colors` design-token block. -/
structure Colors where
  primary : ColorToken
  secondary : ColorToken
  accent : Option ColorToken
  neutrals : Neutrals
  semantic : Option SemanticColors
deriving Repr, DecidableEq, Inhabited

/-- One synthesized font family entry. -/
structure FontFamilyTok where
  name : String
  fallback : String
  usage : String
  source : Option String
deriving Repr, DecidableEq, Inhabited

/-- One synthesized type-scale entry; `font_size` may be `undefined` when
the analysis supplied no `approximate_size`. -/
structure ScaleTok where
  font_size : Option String
  line_height : String
  font_weight : Nat
  usage : String
deriving Repr, DecidableEq, Inhabited

/-- The `typography` design-token block; `font_families` and `scale` are JS
objects modelled as association lists in insertion order.  The source field
`line_height_ratio` is rendered here as `line_height_factor`. -/
structure Typography where
  font_families : List (String × FontFamilyTok)
  scale : List (String × ScaleTok)
  weights : List Nat
  line_height_factor : Rat
deriving Repr, DecidableEq, Inhabited

/-- The optional spacing usage rules. -/
structure SpacingRules where
  component_padding : Option String
  section_margin : Option String
deriving Repr, DecidableEq, Inhabited

/-- The `spacing` design-token block. -/
structure Spacing where
  base_unit : Nat
  scale : List Nat
  density : String
  usage_rules : Option SpacingRules
deriving Repr, DecidableEq, Inhabited

/-- One shadow effect token. -/
structure Shadow where
  name : String
  value : String
  usage : String
deriving Repr, DecidableEq, Inhabited

/-- The `effects` design-token block. -/
structure Effects where
  shadows : Option (List Shadow)
  border_radius : Option (List (String × String))
deriving Repr, DecidableEq, Inhabited

/-- The four design-token blocks. -/
structure DesignTokens where
  colors : Colors
  typography : Typography
  spacing : Spacing
  effects : Effects
deriving Repr, DecidableEq, Inhabited

/-- A synthesized component.  After synthesis every field is materialised
(JS always assigns them); `visual_properties` keeps its `Option` so that the
repair code's `!component.visual_properties` test is expressible (a present
empty object `{}` is truthy, an absent field is falsy). -/
structure Component where
  name : String
  category : String
  description : String
  visual_properties : Option (List (String × String))
  states : List (String × String)
  usage_rules : String
  example_html : String
deriving Repr, DecidableEq, Inhabited

/-- Layout properties of a synthesized pattern. -/
structure LayoutProperties where
  max_width : Option String
  alignment : String
deriving Repr, DecidableEq, Inhabited

/-- A synthesized layout pattern.  The source field named `structure` is
rendered here as `struct` (Lean keyword). -/
structure LayoutPattern where
  name : String
  description : String
  struct : String
  usage : String
  components_used : List String
  layout_properties : LayoutProperties
deriving Repr, DecidableEq, Inhabited

/-- One contrast issue in the accessibility block. -/
structure ContrastIssue where
  foreground : String
  background : String
  severity : String
deriving Repr, DecidableEq, Inhabited

/-- The `accessibility` block; each field is present only when the analysis
made the corresponding observation. -/
structure Accessibility where
  contrast_issues : Option (List ContrastIssue)
  focus_indicators : Option Bool
  min_touch_target : Option String
deriving Repr, DecidableEq, Inhabited

/-- The `notes` block. -/
structure Notes where
  strengths : Option (List String)
  opportunities : Option (List String)
  edge_cases : Option (List String)
deriving Repr, DecidableEq, Inhabited

/-- The `brand_essence` block. -/
structure BrandEssence where
  description : String
  adjectives : List String
  tone : String
  target_audience : Option String
deriving Repr, DecidableEq, Inhabited

/-- The metadata block of a brand specification.  Wall-clock fields
(`extracted_at`, `extraction_duration_ms`) and the constant
`pipeline_version` are omitted: no verified property mentions them. -/
structure SpecMetadata where
  brand_id : String
  brand_name : String
  source_url : String
  adjectives : List String
deriving Repr, DecidableEq, Inhabited

/-- The synthesized brand specification (the shape of `brand_spec.json`). -/
structure BrandSpec where
  metadata : SpecMetadata
  brand_essence : BrandEssence
  design_tokens : DesignTokens
  components : List Component
  patterns : List LayoutPattern
  accessibility : Accessibility
  notes : Notes
deriving Repr, DecidableEq, Inhabited

/-! ## Raw brand tokens (the analysis stage's loosely structured output) -/

/-- One colour reported by the analysis model. -/
structure RawColor where
  hex : String
  name : Option String
  usage_context : Option String
  frequency : Option String
deriving Repr, DecidableEq, Inhabited

/-- The analysis `semantic_mapping` block. -/
structure SemanticMapping where
  primary : Option String
  secondary : Option String
  accent : Option String
  background : Option String
  text_primary : Option String
  text_secondary : Option String
deriving Repr, DecidableEq, Inhabited

/-- The analysis `colors` block. -/
structure ColorsData where
  all_colors : Option (List RawColor)
  semantic_mapping : Option SemanticMapping
deriving Repr, DecidableEq, Inhabited

/-- One raw font family reported by the analysis model. -/
structure RawFontFamily where
  name : String
  role : Option String
  usage : Option String
  fallback : Option String
  source : Option String
deriving Repr, DecidableEq, Inhabited

/-- One raw type-scale entry. -/
structure RawFontScale where
  level : String
  approximate_size : Option String
  weight : Option Nat
  usage : Option String
deriving Repr, DecidableEq, Inhabited

/-- The analysis `typography` block; the source field `line_height_ratio`
is rendered as `line_height_factor`. -/
structure TypographyData where
  font_families : Option (List RawFontFamily)
  font_scale : Option (List RawFontScale)
  line_height_factor : Option Rat
deriving Repr, DecidableEq, Inhabited

/-- The analysis `spacing` block. -/
structure SpacingData where
  estimated_base_unit : Option Nat
  density : Option String
  padding_patterns : Option (List String)
  margin_patterns : Option (List String)
deriving Repr, DecidableEq, Inhabited

/-- One raw shadow reported by the analysis model. -/
structure RawShadow where
  name : String
  value : String
  usage : Option String
deriving Repr, DecidableEq, Inhabited

/-- The analysis `effects` block. -/
structure EffectsData where
  shadows : Option (List RawShadow)
  border_radius_scale : Option (List String)
deriving Repr, DecidableEq, Inhabited

/-- One raw component reported by the analysis model.  A `name` is always
present (the mapping code dereferences it unconditionally). -/
structure RawComponent where
  name : String
  category : Option String
  description : Option String
  visual_properties : Option (List (String × String))
  states_observed : Option (List (String × String))
  usage_notes : Option String
  example_html : Option String
deriving Repr, DecidableEq, Inhabited

/-- One raw layout pattern. -/
structure RawPattern where
  name : String
  description : Option String
  layout_type : Option String
  max_width : Option String
  components_used : Option (List String)
deriving Repr, DecidableEq, Inhabited

/-- The analysis accessibility observations. -/
structure AccessibilityObs where
  contrast_issues : Option (List String)
  focus_indicators : Option String
  touch_targets : Option String
deriving Repr, DecidableEq, Inhabited

/-- The analysis `notes` block. -/
structure NotesData where
  strengths : Option (List String)
  distinctive_elements : Option (List String)
  edge_cases : Option (List String)
deriving Repr, DecidableEq, Inhabited

/-- The analysis `brand_essence` block. -/
structure EssenceData where
  description : Option String
  adjectives : Option (List String)
  tone : Option String
  target_audience : Option String
deriving Repr, DecidableEq, Inhabited

/-- The whole `brand_tokens.json` payload handed to the synthesizer. -/
structure BrandTokens where
  brand_essence : Option EssenceData
  colors : Option ColorsData
  typography : Option TypographyData
  spacing : Option SpacingData
  effects : Option EffectsData
  components : Option (List RawComponent)
  layout_patterns : Option (List RawPattern)
  accessibility_observations : Option AccessibilityObs
  notes : Option NotesData
deriving Repr, DecidableEq, Inhabited

/-! ## `src/pipeline/synthesize.js` — deterministic mapping -/

/-- JavaScript `a || b` for an optional rational (`0` is falsy). -/
def jsOrRat (a : Option Rat) (b : Rat) : Rat :=
  match a with
  | none => b
  | some r => if r = 0 then b else r

/-- A normalised optional string: `none` when the JS value is falsy
(absent or the empty string). -/
def optStrVal (o : Option String) : Option String :=
  match o with
  | none => none
  | some s => if s = "" then none else some s

/-- Substring test (JavaScript `String.prototype.includes`). -/
def strContains (s pat : String) : Bool :=
  (s.splitOn pat).length > 1

/-- JS object property assignment on an association list: replaces the value
in place when the key exists, appends otherwise (JS key insertion order). -/
def objSet {α : Type} (l : List (String × α)) (k : String) (v : α) :
    List (String × α) :=
  match l with
  | [] => [(k, v)]
  | (k', v') :: t => if k' = k then (k, v) :: t else (k', v') :: objSet t k v

/-- JS object property lookup on an association list. -/
def objGet {α : Type} (l : List (String × α)) (k : String) : Option α :=
  (l.find? (fun p => p.1 = k)).map (·.2)

/-- Replaces every maximal run of whitespace by a single dash (the JS
`replace(/\s+/g, '-')`); the boolean tracks whether the previous character
was part of a whitespace run. -/
def wsRunsToDash : Bool → List Char → List Char
  | _, [] => []
  | inRun, c :: t =>
    if c.isWhitespace then
      if inRun then wsRunsToDash true t else '-' :: wsRunsToDash true t
    else c :: wsRunsToDash false t

/-- Insertion of a number into an ascending list (used for the numeric
ascending sort of the font-weight set). -/
def insertAsc (n : Nat) : List Nat → List Nat
  | [] => [n]
  | m :: t => if n ≤ m then n :: m :: t else m :: insertAsc n t

/-- Ascending numeric sort (the JS `Array.from(set).sort((a, b) => a - b)`). -/
def sortAsc (l : List Nat) : List Nat :=
  l.foldr insertAsc []

/-- Deduplication preserving first-insertion order (a JS `Set`). -/
def dedupKeepOrder (l : List Nat) : List Nat :=
  l.foldl (fun acc w => if acc.contains w then acc else acc ++ [w]) []

/-- Translation of `synthesizeBrandEssence`. -/
def synthesizeBrandEssence (tokens : BrandTokens) : BrandEssence :=
  let essence := tokens.brand_essence.getD
    { description := none, adjectives := none, tone := none, target_audience := none }
  { description := jsOrStr essence.description "Brand identity extracted from website"
    adjectives := essence.adjectives.getD []
    tone := jsOrStr essence.tone "professional"
    target_audience := essence.target_audience }

/-- Translation of `synthesizeColors`; returns the colour block together
with the warnings it pushes. -/
def synthesizeColors (colorsData : Option ColorsData) : Colors × List String :=
  let colors0 : Colors :=
    { primary := { value := "#000000", usage := "Primary brand color" }
      secondary := { value := "#666666", usage := "Secondary brand color" }
      accent := none
      neutrals :=
        { white := { value := "#ffffff", usage := "White background" }
          black := { value := "#000000", usage := "Black text" }
          gray := [] }
      semantic := none }
  match colorsData with
  | none => (colors0, ["No color data available in brand tokens"])
  | some cd =>
    let semantic := cd.semantic_mapping.getD
      { primary := none, secondary := none, accent := none, background := none,
        text_primary := none, text_secondary := none }
    let colors1 :=
      match optStrVal semantic.primary with
      | some p =>
        { colors0 with
          primary :=
            { value := p,
              usage := "Primary brand color used for CTAs, links, and brand accents" } }
      | none =>
        match cd.all_colors with
        | some (c :: cs) =>
          match (c :: cs).find? (fun col => col.frequency = some "high") with
          | some cand =>
            { colors0 with
              primary :=
                { value := cand.hex,
                  usage := jsOrStr cand.usage_context "Primary brand color" } }
          | none => colors0
        | _ => colors0
    let colors2 :=
      match optStrVal semantic.secondary with
      | some sec =>
        { colors1 with
          secondary :=
            { value := sec, usage := "Secondary brand color for supporting elements" } }
      | none => colors1
    let colors3 :=
      match optStrVal semantic.accent with
      | some acc =>
        { colors2 with
          accent :=
            some { value := acc, usage := "Accent color for highlights and emphasis" } }
      | none => colors2
    let colors4 :=
      match optStrVal semantic.background with
      | some bg =>
        { colors3 with
          neutrals :=
            { colors3.neutrals with
              white := { value := bg, usage := "Main background color" } } }
      | none => colors3
    let colors5 :=
      match optStrVal semantic.text_primary with
      | some tp =>
        { colors4 with
          neutrals :=
            { colors4.neutrals with
              black := { value := tp, usage := "Primary text color" } } }
      | none => colors4
    let colors6 :=
      match cd.all_colors with
      | none => colors5
      | some allColors =>
        let grayColors := (allColors.filter (fun c =>
          match optStrVal c.name with
          | some nm => strContains nm.toLower "gray" || strContains nm.toLower "grey"
          | none => false)).take 9
        let grayList := grayColors.enum.map (fun p =>
          let step := (p.1 + 1) * 100
          (toString step,
            ({ value := p.2.hex, usage := jsOrStr p.2.usage_context ("Gray " ++ toString step) }
              : ColorToken)))
        let grayList :=
          if grayList.length = 0 then
            match optStrVal semantic.text_secondary with
            | some ts => [("500", { value := ts, usage := "Secondary text and borders" })]
            | none => grayList
          else grayList
        { colors5 with
          neutrals := { colors5.neutrals with gray := grayList } }
    let colors7 :=
      match cd.all_colors with
      | none => colors6
      | some allColors =>
        let byName (words : List String) : Option RawColor :=
          allColors.find? (fun c =>
            match optStrVal c.name with
            | some nm => words.any (fun w => strContains nm.toLower w)
            | none => false)
        let successColor := byName ["success", "green"]
        let errorColor := byName ["error", "red"]
        let warningColor := byName ["warning", "yellow"]
        if successColor.isSome || errorColor.isSome || warningColor.isSome then
          { colors6 with
            semantic := some
              { success := successColor.map (fun c =>
                  { value := c.hex, usage := "Success states and positive actions" })
                error := errorColor.map (fun c =>
                  { value := c.hex, usage := "Error states and destructive actions" })
                warning := warningColor.map (fun c =>
                  { value := c.hex, usage := "Warning states and cautions" }) } }
        else colors6
    (colors7, [])

/-- Translation of `synthesizeTypography`; returns the typography block
together with the warnings it pushes. -/
def synthesizeTypography (typographyData : Option TypographyData) :
    Typography × List String :=
  let typography0 : Typography :=
    { font_families :=
        [("primary", { name := "Arial", fallback := "sans-serif", usage := "All text",
                       source := none })]
      scale := []
      weights := [400, 600, 700]
      line_height_factor := 3/2 }
  match typographyData with
  | none => (typography0, ["No typography data available in brand tokens"])
  | some td =>
    let families :=
      match td.font_families with
      | some (f :: fs) =>
        (f :: fs).foldl (fun acc font =>
          let role := jsOrStr font.role "primary"
          objSet acc role
            { name := font.name
              fallback := jsOrStr font.fallback "sans-serif"
              usage := jsOrStr font.usage (role ++ " font")
              source := font.source }) typography0.font_families
      | _ => typography0.font_families
    let scale1 :=
      match td.font_scale with
      | some (st :: sts) =>
        (st :: sts).foldl (fun acc style =>
          objSet acc style.level
            { font_size := style.approximate_size
              line_height := "1.2"
              font_weight := jsOrNat style.weight 400
              usage := jsOrStr style.usage (style.level ++ " text") }) []
      | _ => []
    let defaultsFor (level : String) : ScaleTok :=
      if level = "h1" then
        { font_size := some "48px", line_height := "1.2", font_weight := 700,
          usage := "Page titles" }
      else if level = "h2" then
        { font_size := some "36px", line_height := "1.3", font_weight := 600,
          usage := "Section headings" }
      else if level = "h3" then
        { font_size := some "24px", line_height := "1.4", font_weight := 600,
          usage := "Subsection headings" }
      else if level = "body" then
        { font_size := some "16px", line_height := "1.5", font_weight := 400,
          usage := "Body text" }
      else
        { font_size := some "14px", line_height := "1.5", font_weight := 400,
          usage := "Small text and captions" }
    let scale2 :=
      ["h1", "h2", "h3", "body", "small"].foldl (fun acc level =>
        match objGet acc level with
        | some _ => acc
        | none => objSet acc level (defaultsFor level)) scale1
    let weights := sortAsc (dedupKeepOrder (scale2.map (fun p => p.2.font_weight)))
    ({ font_families := families
       scale := scale2
       weights := weights
       line_height_factor := jsOrRat td.line_height_factor (3/2) }, [])

/-- Translation of `synthesizeSpacing`. -/
def synthesizeSpacing (spacingData : Option SpacingData) : Spacing :=
  let spacing0 : Spacing :=
    { base_unit := 8, scale := [4, 8, 12, 16, 24, 32, 48, 64, 96],
      density := "comfortable", usage_rules := none }
  match spacingData with
  | none => spacing0
  | some sd =>
    let baseUnit := jsOrNat sd.estimated_base_unit 8
    let density := jsOrStr sd.density "comfortable"
    let rules :=
      if sd.padding_patterns.isSome || sd.margin_patterns.isSome then
        some
          { component_padding :=
              match sd.padding_patterns with
              | some (p :: _) => some p
              | _ => none
            section_margin :=
              match sd.margin_patterns with
              | some (m :: _) => some m
              | _ => none }
      else none
    { base_unit := baseUnit, scale := spacing0.scale, density := density,
      usage_rules := rules }

/-- Translation of `synthesizeEffects`. -/
def synthesizeEffects (effectsData : Option EffectsData) : Effects :=
  match effectsData with
  | none => { shadows := none, border_radius := none }
  | some ed =>
    let shadows :=
      match ed.shadows with
      | some (s :: ss) =>
        some ((s :: ss).map (fun sh =>
          ({ name := sh.name, value := sh.value,
             usage := jsOrStr sh.usage "Shadow effect" } : Shadow)))
      | _ => none
    let borderRadius :=
      match ed.border_radius_scale with
      | some (v :: vs) =>
        some (((v :: vs).take 4).enum.map (fun p =>
          (["sm", "md", "lg", "xl"].getD p.1 ("r" ++ toString p.1), p.2)))
      | _ => none
    { shadows := shadows, border_radius := borderRadius }

/-- Translation of `synthesizeComponents`.  `String.toLower` stands for the
JS `toLowerCase` (ASCII data) and `wsRunsToDash` for `replace(/\s+/g, '-')`. -/
def synthesizeComponents (tokens : BrandTokens) : List Component :=
  match tokens.components with
  | some (c :: cs) =>
    (c :: cs).map (fun comp =>
      let slug := String.mk (wsRunsToDash false comp.name.toLower.data)
      { name := comp.name
        category := jsOrStr comp.category "other"
        description := jsOrStr comp.description ""
        visual_properties := some (comp.visual_properties.getD [])
        states := comp.states_observed.getD []
        usage_rules := jsOrStr comp.usage_notes ""
        example_html := jsOrStr comp.example_html
          ("<div class=\"" ++ slug ++ "\">" ++ comp.name ++ "</div>") })
  | _ => []

/-- Translation of `synthesizePatterns`. -/
def synthesizePatterns (tokens : BrandTokens) : List LayoutPattern :=
  match tokens.layout_patterns with
  | some (p :: ps) =>
    (p :: ps).map (fun pat =>
      { name := pat.name
        description := jsOrStr pat.description ""
        struct := jsOrStr pat.description ""
        usage := jsOrStr pat.layout_type "General layout"
        components_used := pat.components_used.getD []
        layout_properties :=
          { max_width := pat.max_width
            alignment := if pat.layout_type = some "centered" then "center" else "left" } })
  | _ => []

/-- Translation of `synthesizeAccessibility`. -/
def synthesizeAccessibility (tokens : BrandTokens) : Accessibility :=
  match tokens.accessibility_observations with
  | none => { contrast_issues := none, focus_indicators := none, min_touch_target := none }
  | some obs =>
    let contrast :=
      match obs.contrast_issues with
      | some (i :: is') =>
        some ((i :: is').map (fun issue =>
          let parts := issue.splitOn "/"
          ({ foreground := jsOrStr' (parts.headD "") issue
             background := jsOrStr (parts.get? 1) "#ffffff"
             severity := "AA-fail" } : ContrastIssue)))
      | _ => none
    let focus :=
      match optStrVal obs.focus_indicators with
      | some fi => some (fi = "yes")
      | none => none
    let touch :=
      match optStrVal obs.touch_targets with
      | some tt => some (if tt = "yes" then "44px x 44px" else "Below 44px")
      | none => none
    { contrast_issues := contrast, focus_indicators := focus, min_touch_target := touch }

/-- Translation of `synthesizeNotes`. -/
def synthesizeNotes (tokens : BrandTokens) : Notes :=
  match tokens.notes with
  | none => { strengths := none, opportunities := none, edge_cases := none }
  | some nd =>
    { strengths := nd.strengths
      opportunities := nd.distinctive_elements
      edge_cases := nd.edge_cases }

/-- The pure specification construction at the top of `synthesizeBrandSpec`
(the `brandSpec` object literal), together with the warnings pushed by the
colour and typography mapping. -/
def buildBrandSpec (tokens : BrandTokens) (md : SpecMetadata) :
    BrandSpec × List String :=
  let (colors, wColors) := synthesizeColors tokens.colors
  let (typography, wTypography) := synthesizeTypography tokens.typography
  (({ metadata := md
      brand_essence := synthesizeBrandEssence tokens
      design_tokens :=
        { colors := colors
          typography := typography
          spacing := synthesizeSpacing tokens.spacing
          effects := synthesizeEffects tokens.effects }
      components := synthesizeComponents tokens
      patterns := synthesizePatterns tokens
      accessibility := synthesizeAccessibility tokens
      notes := synthesizeNotes tokens } : BrandSpec),
   wColors ++ wTypography)

/-! ## Schema validation and auto-repair (`fixValidationIssues`) -/

/-- Detection of the first `/components/<digits>` occurrence in an instance
path (the JS `path.includes('/components/')` guard plus the
`/\/components\/(\d+)/` match). -/
def pathComponentsIdx : List String → Option Nat
  | [] => none
  | "components" :: d :: rest =>
    match leadingNat d with
    | some i => some i
    | none => pathComponentsIdx (d :: rest)
  | _ :: rest => pathComponentsIdx rest

/-- The component index a validation error repairs, when the error is a
`required`-keyword error under `/components/<i>`. -/
def errorComponentIndex (e : ValError) : Option Nat :=
  if e.keyword = "required" then pathComponentsIdx e.instancePath else none

/-- The repair applied to `brandSpec.components[index]`.  An out-of-range
index models the JS `TypeError` thrown when `components[index]` is
`undefined` and its properties are dereferenced; the exception is caught by
the surrounding stage `try`. -/
def fixComponentAt (comps : List Component) (idx : Nat) :
    Except String (List Component) :=
  match comps.get? idx with
  | none => .error "Cannot read properties of undefined (reading 'visual_properties')"
  | some c0 =>
    let c1 := if c0.visual_properties.isNone
      then { c0 with visual_properties := some [] } else c0
    let c2 := if c1.category = "" then { c1 with category := "other" } else c1
    let c3 := if c2.description = ""
      then { c2 with description := jsOrStr' c2.name "Component" } else c2
    .ok (comps.set idx c3)

/-- Translation of `fixValidationIssues`: iterates the validator's reported
errors (`errors.forEach`), repairing the component that each
`/components/<i>` `required` error points at; other errors are skipped.  A
thrown `TypeError` aborts the iteration. -/
def fixValidationIssues (spec : BrandSpec) (errors : List ValError) :
    Except String BrandSpec :=
  errors.foldlM (fun sp e =>
    match errorComponentIndex e with
    | some i => (fixComponentAt sp.components i).map (fun cs => { sp with components := cs })
    | none => .ok sp) spec

/-- Stage status enumeration of a `StageResult`. -/
inductive Status
  | success
  | warning
  | failed
  | skipped
deriving Repr, DecidableEq, Inhabited

/-- Outcome of `synthesizeBrandSpec`: either a produced specification (with
the stage status, the accumulated warnings and — as model instrumentation —
the number of schema-validation calls performed), or a stage failure caught
by the stage's `try`/`catch` (its error message becomes the single
`SYNTHESIS_ERROR` entry of the failed `StageResult`). -/
inductive SynthResult
  | done (status : Status) (spec : BrandSpec) (warnings : List String)
      (validationCalls : Nat)
  | failure (msg : String) (warnings : List String)
deriving Repr, DecidableEq, Inhabited

/-- Translation of `synthesizeBrandSpec` (file persistence, logging and
durations omitted).  The validator compiled from `brand_spec.schema.json`
is a parameter: the schema file is external to the translated sources. -/
def synthesizeBrandSpec (validate : BrandSpec → ValidationResult)
    (tokens : BrandTokens) (md : SpecMetadata) : SynthResult :=
  let (brandSpec, warnings0) := buildBrandSpec tokens md
  let validation := validate brandSpec
  if validation.valid then
    .done (if warnings0.length > 0 then .warning else .success) brandSpec warnings0 1
  else
    let warnings := warnings0 ++
      ["Schema validation issues: " ++ toString validation.errors.length ++ " errors found"]
    match fixValidationIssues brandSpec validation.errors with
    | .error msg => .failure msg warnings
    | .ok repaired =>
      let _revalidation := validate repaired
      .done (if warnings.length > 0 then .warning else .success) repaired warnings 2

/-! ## `src/pipeline/evaluate.js` -/

/-- Per-stage model-call metrics, as copied into the execution trace.
`api_calls` and `improvements_made` are optional because the orchestrator's
own skipped-refine metrics object carries no `api_calls` field and only the
refine stage reports `improvements_made`. -/
structure Metrics where
  tokens_input : Nat
  tokens_output : Nat
  api_calls : Option Nat
  improvements_made : Option Nat
deriving Repr, DecidableEq, Inhabited

/-- One evaluation dimension (the evidence payload, free text, is omitted:
no verified property mentions it). -/
structure Dimension where
  name : String
  display_name : String
  score : Rat
  weight : Rat
  justification : String
deriving Repr, DecidableEq, Inhabited

/-- One evaluation recommendation. -/
structure Recommendation where
  priority : String
  dimension : String
  issue : String
  suggestion : String
deriving Repr, DecidableEq, Inhabited

/-- The JSON payload parsed out of the evaluation model's reply.  The
`quality_band` field models a band the adapter might volunteer in its JSON;
`evaluateBrandSpec` never reads it. -/
structure EvalResponse where
  overall_score : Rat
  dimensions : List Dimension
  recommendations : List Recommendation
  quality_band : Option String
deriving Repr, DecidableEq, Inhabited

/-- The evaluation object built by `evaluateBrandSpec` (constant version
strings, timestamps and the nested metadata block omitted). -/
structure Evaluation where
  brand_id : String
  overall_score : Rat
  quality_band : String
  dimensions : List Dimension
  recommendations : List Recommendation
deriving Repr, DecidableEq, Inhabited

/-- Translation of `getQualityBand`. -/
def getQualityBand (score : Rat) : String :=
  if score ≥ 4.5 then "excellent"
  else if score ≥ 3.5 then "good"
  else if score ≥ 2.5 then "acceptable"
  else "poor"

/-- The six required dimensions (name, display name, weight) hard-coded in
`fixEvaluationIssues`. -/
def requiredDimensions : List (String × String × Rat) :=
  [("brand_fidelity", "Brand Fidelity", 2/5),
   ("completeness", "Completeness", 1/5),
   ("parseability", "Parseability", 3/20),
   ("actionability", "Actionability", 3/20),
   ("accessibility", "Accessibility", 1/20),
   ("insight_depth", "Insight Depth", 1/20)]

/-- Translation of `fixEvaluationIssues` (an `errors.forEach` mutating the
evaluation object): `minItems` errors at `/dimensions` insert the missing
required dimensions with score `3.0`; a falsy (`0`) `overall_score` is
recomputed as the weighted sum of the dimension scores. -/
def fixEvaluationIssues (ev0 : Evaluation) (errors : List ValError) : Evaluation :=
  errors.foldl (fun ev e =>
    let ev1 :=
      if e.instancePath = ["dimensions"] ∧ e.keyword = "minItems" then
        { ev with
          dimensions := requiredDimensions.foldl (fun dims d =>
            if (dims.find? (fun dd => dd.name = d.1)).isSome then dims
            else dims ++ [{ name := d.1, display_name := d.2.1, score := 3,
                            weight := d.2.2, justification := "Dimension not evaluated" }])
            ev.dimensions }
      else ev
    if ev1.overall_score = 0 then
      { ev1 with
        overall_score := ev1.dimensions.foldl (fun s d => s + d.score * d.weight) 0 }
    else ev1) ev0

/-- Outcome of the evaluation model call, as seen by `evaluateBrandSpec`:
either the parsed JSON reply, or a thrown error (API failure or
unparsable reply), with the token usage observed either way. -/
inductive EvalCallOutcome
  | ok (resp : EvalResponse) (tokens_in tokens_out : Nat)
  | fail (msg : String) (tokens_in tokens_out : Nat)
deriving Repr, DecidableEq, Inhabited

/-- The `StageResult` of the evaluation stage. -/
inductive EvalStageResult
  | done (data : Evaluation) (metrics : Metrics)
  | failure (msg : String) (metrics : Metrics)
deriving Repr, DecidableEq, Inhabited

/-- Translation of `evaluateBrandSpec` (file persistence, logging and
durations omitted; the validator for `evaluation.schema.json` is a
parameter).  The returned evaluation's `quality_band` is computed by
`getQualityBand` from the adapter-returned `overall_score`; any band in the
reply is ignored. -/
def evaluateBrandSpec (validateEvaluation : Evaluation → ValidationResult)
    (brandSpec : BrandSpec) (call : EvalCallOutcome) : EvalStageResult :=
  match call with
  | .fail msg tin tout =>
    .failure msg
      { tokens_input := tin, tokens_output := tout, api_calls := some 1,
        improvements_made := none }
  | .ok resp tin tout =>
    let evaluation : Evaluation :=
      { brand_id := brandSpec.metadata.brand_id
        overall_score := resp.overall_score
        quality_band := getQualityBand resp.overall_score
        dimensions := resp.dimensions
        recommendations := resp.recommendations }
    let validation := validateEvaluation evaluation
    let evaluation :=
      if validation.valid then evaluation
      else fixEvaluationIssues evaluation validation.errors
    .done evaluation
      { tokens_input := tin, tokens_output := tout, api_calls := some 1,
        improvements_made := none }

/-! ## `src/pipeline/refine.js` -/

/-- JSON string escaping for the characters that occur in modelled data
(quote, backslash and common control characters). -/
def jsonEscapeChar (c : Char) : List Char :=
  if c = '"' then ['\\', '"']
  else if c = '\\' then ['\\', '\\']
  else if c = '\n' then ['\\', 'n']
  else if c = '\t' then ['\\', 't']
  else if c = '\r' then ['\\', 'r']
  else [c]

/-- A JSON string literal (the `JSON.stringify` rendering of a string). -/
def jsonStr (s : String) : String :=
  "\"" ++ String.mk (s.data.foldr (fun c acc => jsonEscapeChar c ++ acc) []) ++ "\""

/-- The `JSON.stringify` rendering of one contrast issue. -/
def contrastIssueJson (i : ContrastIssue) : String :=
  "\x7b\"foreground\":" ++ jsonStr i.foreground ++
  ",\"background\":" ++ jsonStr i.background ++
  ",\"severity\":" ++ jsonStr i.severity ++ "\x7d"

/-- The `JSON.stringify` rendering of the accessibility block (keys in
construction order; absent fields omitted, as `stringify` drops
`undefined`). -/
def accessibilityJson (a : Accessibility) : String :=
  let fields : List String :=
    (match a.contrast_issues with
     | some issues =>
       ["\"contrast_issues\":[" ++
          String.intercalate "," (issues.map contrastIssueJson) ++ "]"]
     | none => []) ++
    (match a.focus_indicators with
     | some b => ["\"focus_indicators\":" ++ (if b then "true" else "false")]
     | none => []) ++
    (match a.min_touch_target with
     | some t => ["\"min_touch_target\":" ++ jsonStr t]
     | none => [])
  "\x7b" ++ String.intercalate "," fields ++ "\x7d"

/-- Number of top-level keys of the `colors` token block
(`Object.keys(design_tokens.colors).length`): `primary`, `secondary` and
`neutrals` are always present; `accent` and `semantic` are optional. -/
def colorsKeyCount (c : Colors) : Nat :=
  3 + (if c.accent.isSome then 1 else 0) + (if c.semantic.isSome then 1 else 0)

/-- Number of `"usage_rules":` key occurrences in the serialized
specification: one per component plus one for the optional spacing usage
rules (occurrences of the same text inside string values are not
modelled). -/
def usageRulesCount (spec : BrandSpec) : Nat :=
  spec.components.length +
    (if spec.design_tokens.spacing.usage_rules.isSome then 1 else 0)

/-- Translation of `countImprovements`. -/
def countImprovements (original refined : BrandSpec) : Nat :=
  let compGain :=
    if refined.components.length > original.components.length then
      refined.components.length - original.components.length
    else 0
  let colorGain :=
    if colorsKeyCount refined.design_tokens.colors >
        colorsKeyCount original.design_tokens.colors then 1 else 0
  let rulesGain :=
    if usageRulesCount refined > usageRulesCount original then 1 else 0
  let accessGain :=
    if (accessibilityJson refined.accessibility).length >
        (accessibilityJson original.accessibility).length + 100 then 1 else 0
  compGain + colorGain + rulesGain + accessGain

/-- Outcome of the refinement model call: either the parsed refined
specification, or a thrown error (API failure or unparsable reply), with
the observed token usage. -/
inductive RefineCall
  | ok (refined : BrandSpec) (tokens_in tokens_out : Nat)
  | fail (msg : String) (tokens_in tokens_out : Nat)
deriving Repr, DecidableEq, Inhabited

/-- The `StageResult` of the refinement stage: status, metrics, the carried
specification (`data`) and the message of the recoverable error entry, when
one was recorded. -/
structure RefineOutcome where
  status : Status
  tokens_input : Nat
  tokens_output : Nat
  api_calls : Nat
  improvements_made : Nat
  data : BrandSpec
  errorMessage : Option String
deriving Repr, DecidableEq, Inhabited

/-- Translation of `refineBrandSpec` (file persistence, logging, prompt
construction and durations omitted; the `brand_spec.schema.json` validator
is a parameter).  Score at least `4.5` skips; a refined specification
replaces the original only after it passes validation; a validation
failure or a thrown error returns the original specification. -/
def refineBrandSpec (validate : BrandSpec → ValidationResult)
    (brandSpec : BrandSpec) (evaluation : Evaluation) (call : RefineCall) :
    RefineOutcome :=
  if evaluation.overall_score ≥ 4.5 then
    { status := .skipped, tokens_input := 0, tokens_output := 0, api_calls := 0,
      improvements_made := 0, data := brandSpec, errorMessage := none }
  else
    match call with
    | .fail msg tin tout =>
      { status := .failed, tokens_input := tin, tokens_output := tout,
        api_calls := 1, improvements_made := 0, data := brandSpec,
        errorMessage := some msg }
    | .ok refined tin tout =>
      let validation := validate refined
      if validation.valid then
        { status := .success, tokens_input := tin, tokens_output := tout,
          api_calls := 1, improvements_made := countImprovements brandSpec refined,
          data := refined, errorMessage := none }
      else
        { status := .failed, tokens_input := tin, tokens_output := tout,
          api_calls := 1, improvements_made := 0, data := brandSpec,
          errorMessage := some "Refined specification failed validation" }

/-! ## `src/pipeline/orchestrator.js` -/

/-- Translation of `extractBrandName` (URL parsing simplified to
`scheme://hostpart` splitting; `new URL` failure — no `://` — yields the
fallback `"brand"`).  Mirrors: take the hostname, drop the first `www.`
occurrence, keep the first dot-separated label, replace every
non-alphanumeric character by `_`. -/
def extractBrandName (url : String) : String :=
  match url.splitOn "://" with
  | _ :: after :: _ =>
    let hostport := after.takeWhile (fun c => c != '/' && c != '?' && c != '#')
    let hostname := ((hostport.splitOn ":").headD "").toLower
    let hostname :=
      match hostname.splitOn "www." with
      | a :: b :: rest => a ++ String.intercalate "www." (b :: rest)
      | _ => hostname
    let name := (hostname.splitOn ".").headD ""
    String.mk (name.data.map (fun c => if c.isAlphanum then c else '_'))
  | _ => "brand"

/-- The metadata block the orchestrator passes to the synthesizer, built
from the request inputs (brand id = name, date tag and uuid slice). -/
def runMetadata (url : String) (adjectives : List String)
    (dateTag uuid8 : String) : SpecMetadata :=
  { brand_id := extractBrandName url ++ "_" ++ dateTag ++ "_" ++ uuid8
    brand_name := extractBrandName url
    source_url := url
    adjectives := adjectives }

/-- The JS `Number.prototype.toFixed(2)` on a non-negative score (round to
nearest, ties up), e.g. `3.875 ↦ "3.88"`. -/
def ratToFixed2 (x : Rat) : String :=
  let n : Int := ⌊x * 100 + 1/2⌋
  let ip := n / 100
  let fp := (n % 100).toNat
  toString ip ++ "." ++ (if fp < 10 then "0" else "") ++ toString fp

/-- The JS `parseFloat(x.toFixed(4))` on a non-negative cost (round to four
decimal places, ties up). -/
def roundTo4 (x : Rat) : Rat :=
  ((⌊x * 10000 + 1/2⌋ : Int) : Rat) / 10000

/-- Outcome of the capture stage (`captureWebsite`): the artifact count on
success (used in the progress message), or the caught error's message. -/
inductive CaptureOutcome
  | ok (artifactsCount : Nat)
  | fail (msg : String)

/-- Outcome of the analysis stage (`analyzeWithClaude`): the parsed brand
tokens and token usage, or the caught error's message with the usage
observed before the throw. -/
inductive AnalyzeOutcome
  | ok (tokens : BrandTokens) (tokens_in tokens_out : Nat)
  | fail (msg : String) (tokens_in tokens_out : Nat)

/-- The external world of one `extractBrand` run: the request inputs, the
behaviour of each external collaborator, and the two Ajv validators
compiled from the on-disk schema files. -/
structure Env where
  url : String
  adjectives : List String
  dateTag : String
  uuid8 : String
  capture : CaptureOutcome
  analyze : AnalyzeOutcome
  evalCall : EvalCallOutcome
  refineCall : RefineCall
  validateSpec : BrandSpec → ValidationResult
  validateEvalSchema : Evaluation → ValidationResult

/-- One entry of `executionTrace.stages` (timing, artifact and log
bookkeeping omitted: no verified property mentions them). -/
structure StageEntry where
  name : String
  status : Status
  metrics : Option Metrics
deriving Repr, DecidableEq, Inhabited

/-- The `executionTrace.summary` object (total duration omitted). -/
structure Summary where
  status : String
  total_tokens : Nat
  estimated_cost_usd : Rat
  warnings : List String
deriving Repr, DecidableEq, Inhabited

/-- The success payload returned by `extractBrand` (the execution trace is
carried as its stage list plus summary; file paths and the report metadata
block are omitted). -/
structure SuccessData where
  brand_id : String
  brand_name : String
  brand_spec : BrandSpec
  evaluation : Evaluation
  refinement : Option RefineOutcome
  stages : List StageEntry
  summary : Summary
deriving Repr, DecidableEq, Inhabited

/-- The value resolved by `extractBrand`: the success object, or the
`{success: false, error}` object.  The failure case additionally carries —
as model instrumentation only; the source discards its local trace — the
stage entries accumulated before the abort, so that properties about
"which StageResults were produced" are statable. -/
inductive ExtractResult
  | ok (d : SuccessData)
  | failed (error : String) (stages : List StageEntry)
deriving Repr, DecidableEq, Inhabited

/-- Trace finalisation and result assembly (the tail of `extractBrand`'s
`try` block): token totals, the cost estimate at the fixed rates (input
$3 per million tokens, output $15 per million tokens, stored rounded to
four decimals), the two `finalize` progress events, and the success
object. -/
def finishRun {σ : Type} (sink : σ → String → String → Except String σ) (s : σ)
    (brandId brandName : String) (finalSpec : BrandSpec) (evaluation : Evaluation)
    (refineOpt : Option RefineOutcome) (stages : List StageEntry)
    (warns : List String) (analyzeIn analyzeOut evalIn evalOut : Nat) :
    Except (String × List StageEntry × σ) (SuccessData × σ) :=
  let refineIn := (refineOpt.map (·.tokens_input)).getD 0
  let refineOut := (refineOpt.map (·.tokens_output)).getD 0
  let totalTokens := analyzeIn + analyzeOut + evalIn + evalOut + refineIn + refineOut
  let inputTokens := analyzeIn + evalIn + refineIn
  let outputTokens := analyzeOut + evalOut + refineOut
  let estimatedCost : Rat :=
    (inputTokens : Rat) / 1000000 * 3 + (outputTokens : Rat) / 1000000 * 15
  let summary : Summary :=
    { status := "success", total_tokens := totalTokens,
      estimated_cost_usd := roundTo4 estimatedCost, warnings := warns }
  match sink s "finalize" "Saving execution trace..." with
  | .error e => .error (e, stages, s)
  | .ok s1 =>
    match sink s1 "finalize" "Brand extraction complete!" with
    | .error e => .error (e, stages, s1)
    | .ok s2 =>
      .ok ({ brand_id := brandId, brand_name := brandName, brand_spec := finalSpec,
             evaluation := evaluation, refinement := refineOpt, stages := stages,
             summary := summary }, s2)

/-- The `try` block of `extractBrand`, sequencing the five stages.  The
progress sink is the `onProgress` callback: an arbitrary state transformer
that may itself throw.  An `Except.error` carries the thrown message, the
stage entries accumulated so far and the state at the throw; stage
failures and sink throws alike unwind to the surrounding `catch`. -/
def extractBody {σ : Type} (env : Env)
    (sink : σ → String → String → Except String σ) (s0 : σ) :
    Except (String × List StageEntry × σ) (SuccessData × σ) :=
  let brandName := extractBrandName env.url
  let brandId := brandName ++ "_" ++ env.dateTag ++ "_" ++ env.uuid8
  match sink s0 "setup" ("Creating brand directories for " ++ brandId) with
  | .error e => .error (e, [], s0)
  | .ok s1 =>
  match sink s1 "capture" "Launching browser and capturing website..." with
  | .error e => .error (e, [], s1)
  | .ok s2 =>
  let captureEntry : StageEntry :=
    { name := "capture"
      status := match env.capture with | .ok _ => .success | .fail _ => .failed
      metrics := none }
  let stages1 := [captureEntry]
  match env.capture with
  | .fail msg => .error ("Capture stage failed: " ++ msg, stages1, s2)
  | .ok artifactsCount =>
  match sink s2 "capture" ("Captured " ++ toString artifactsCount ++ " artifacts") with
  | .error e => .error (e, stages1, s2)
  | .ok s3 =>
  match sink s3 "analyze" "Analyzing screenshots with Claude Vision API..." with
  | .error e => .error (e, stages1, s3)
  | .ok s4 =>
  let analyzeEntry : StageEntry :=
    { name := "analyze"
      status := match env.analyze with | .ok _ _ _ => .success | .fail _ _ _ => .failed
      metrics := some
        (match env.analyze with
         | .ok _ tin tout =>
           { tokens_input := tin, tokens_output := tout, api_calls := some 1,
             improvements_made := none }
         | .fail _ tin tout =>
           { tokens_input := tin, tokens_output := tout, api_calls := some 1,
             improvements_made := none }) }
  let stages2 := stages1 ++ [analyzeEntry]
  match env.analyze with
  | .fail msg _ _ => .error ("Analysis stage failed: " ++ msg, stages2, s4)
  | .ok brandTokens analyzeIn analyzeOut =>
  match sink s4 "analyze"
      ("Analysis complete (" ++ toString (analyzeIn + analyzeOut) ++ " tokens)") with
  | .error e => .error (e, stages2, s4)
  | .ok s5 =>
  match sink s5 "synthesize" "Synthesizing brand specification..." with
  | .error e => .error (e, stages2, s5)
  | .ok s6 =>
  let md := runMetadata env.url env.adjectives env.dateTag env.uuid8
  match synthesizeBrandSpec env.validateSpec brandTokens md with
  | .failure msg _ =>
    let stages3 := stages2 ++ [{ name := "synthesize", status := .failed, metrics := none }]
    .error ("Synthesis stage failed: " ++ msg, stages3, s6)
  | .done synthStatus spec warns _ =>
  let stages3 := stages2 ++ [{ name := "synthesize", status := synthStatus, metrics := none }]
  match sink s6 "synthesize"
      (if warns.length > 0 then
        "Synthesis complete with " ++ toString warns.length ++ " warnings"
       else "Brand specification synthesized and validated") with
  | .error e => .error (e, stages3, s6)
  | .ok s7 =>
  match sink s7 "evaluate" "Evaluating brand specification quality..." with
  | .error e => .error (e, stages3, s7)
  | .ok s8 =>
  match evaluateBrandSpec env.validateEvalSchema spec env.evalCall with
  | .failure msg m =>
    let stages4 := stages3 ++ [{ name := "evaluate", status := .failed, metrics := some m }]
    .error ("Evaluation stage failed: " ++ msg, stages4, s8)
  | .done evaluation m =>
  let stages4 := stages3 ++ [{ name := "evaluate", status := .success, metrics := some m }]
  match sink s8 "evaluate"
      ("Evaluation complete - Overall score: " ++ ratToFixed2 evaluation.overall_score
        ++ "/5.0") with
  | .error e => .error (e, stages4, s8)
  | .ok s9 =>
  if evaluation.overall_score < 4.5 then
    match sink s9 "refine"
        ("Refining specification based on feedback (score: "
          ++ ratToFixed2 evaluation.overall_score ++ ")...") with
    | .error e => .error (e, stages4, s9)
    | .ok s10 =>
    let r := refineBrandSpec env.validateSpec spec evaluation env.refineCall
    let refineMetrics : Metrics :=
      { tokens_input := r.tokens_input, tokens_output := r.tokens_output,
        api_calls := some r.api_calls, improvements_made := some r.improvements_made }
    let stages5 := stages4 ++
      [{ name := "refine", status := r.status, metrics := some refineMetrics }]
    let finalSpec := if r.status = .success then r.data else spec
    let refineMsg :=
      if r.status = .success then
        "Refinement complete - Made " ++ toString r.improvements_made ++ " improvements"
      else if r.status = .skipped then "Refinement skipped - score is excellent"
      else "Refinement failed - using original specification"
    match sink s10 "refine" refineMsg with
    | .error e => .error (e, stages5, s10)
    | .ok s11 =>
      finishRun sink s11 brandId brandName finalSpec evaluation (some r) stages5 warns
        analyzeIn analyzeOut m.tokens_input m.tokens_output
  else
    match sink s9 "refine" "Refinement skipped - score is excellent (≥4.5)" with
    | .error e => .error (e, stages4, s9)
    | .ok s10 =>
    let skipMetrics : Metrics :=
      { tokens_input := 0, tokens_output := 0, api_calls := none,
        improvements_made := some 0 }
    let stages5 := stages4 ++
      [{ name := "refine", status := .skipped, metrics := some skipMetrics }]
    finishRun sink s10 brandId brandName spec evaluation none stages5 warns
      analyzeIn analyzeOut m.tokens_input m.tokens_output

/-- Translation of `extractBrand`: the `try` body above wrapped in the
`catch` handler, which emits the terminal `error` progress event and
resolves with the `{success: false, error}` object.  The function rejects
(outer `Except.error`) only when the `catch` handler's own `emit`
throws. -/
def extractBrand {σ : Type} (env : Env)
    (sink : σ → String → String → Except String σ) (s0 : σ) :
    Except (String × σ) (ExtractResult × σ) :=
  match extractBody env sink s0 with
  | .ok (d, s) => .ok (.ok d, s)
  | .error (msg, stages, s) =>
    match sink s "error" ("Extraction failed: " ++ msg) with
    | .ok s' => .ok (.failed msg stages, s')
    | .error m2 => .error (m2, s)

/-! ## `src/server.js` — the extraction session of `POST /api/extract` -/

/-- One progress event stored in `session.events`; `brand_id` is set only
on the final `complete` event of a successful run (elsewhere the JS field
is `undefined`). -/
structure SessionEvent where
  stage : String
  message : String
  progress_percent : Nat
  brand_id : Option String
deriving Repr, DecidableEq, Inhabited

/-- The per-request session object held in `activeSessions`. -/
structure Session where
  status : String
  progress : Nat
  stage : String
  message : String
  events : List SessionEvent
  errMsg : Option String
deriving Repr, DecidableEq, Inhabited

/-- The session object created by `POST /api/extract`. -/
def initialSession : Session :=
  { status := "processing", progress := 0, stage := "setup",
    message := "Initializing extraction...", events := [], errMsg := none }

/-- The `stageProgress` percent map of the `onProgress` handler. -/
def stageProgress (st : String) : Option Nat :=
  if st = "setup" then some 5
  else if st = "capture" then some 25
  else if st = "analyze" then some 50
  else if st = "synthesize" then some 75
  else if st = "evaluate" then some 90
  else if st = "finalize" then some 100
  else if st = "error" then some 0
  else none

/-- The JS `stageProgress[stage] || session.progress`: an unmapped stage
(such as `refine` or `complete`) and the mapped-to-`0` `error` stage both
fall through to the session's current progress (`0` is falsy). -/
def jsProgressOr (st : String) (cur : Nat) : Nat :=
  match stageProgress st with
  | some p => if p = 0 then cur else p
  | none => cur

/-- Translation of the `onProgress` callback registered by
`POST /api/extract`: updates the session's stage/message/progress and
appends the event. -/
def onProgressHandler (s : Session) (st msg : String) : Session :=
  let p := jsProgressOr st s.progress
  let ev : SessionEvent :=
    { stage := st, message := msg, progress_percent := p, brand_id := none }
  { s with
    stage := st
    message := msg
    progress := p
    events := s.events ++ [ev] }

/-- The `onProgress` callback as a progress sink for `extractBrand`; it
never throws. -/
def serverSink : Session → String → String → Except String Session :=
  fun s st msg => .ok (onProgressHandler s st msg)

/-- Translation of the `.then` handler: marks the session terminal
(`completed` on success, `failed` otherwise), forces progress to 100 and
appends the final `complete`-stage event (whose message carries the error
message on failure, and whose `brand_id` is `undefined` then). -/
def thenHandler (s : Session) (r : ExtractResult) : Session :=
  match r with
  | .ok d =>
    let ev : SessionEvent :=
      { stage := "complete",
        message := "Extraction complete! Brand ID: " ++ d.brand_id,
        progress_percent := 100, brand_id := some d.brand_id }
    { s with
      status := "completed"
      progress := 100
      events := s.events ++ [ev] }
  | .failed e _ =>
    let ev : SessionEvent :=
      { stage := "complete", message := "Extraction failed: " ++ e,
        progress_percent := 100, brand_id := none }
    { s with
      status := "failed"
      progress := 100
      events := s.events ++ [ev] }

/-- Translation of the `.catch` handler (reached only if `extractBrand`
rejects): marks the session `failed` and appends an `error`-stage event at
the current progress. -/
def catchHandler (s : Session) (msg : String) : Session :=
  let ev : SessionEvent :=
    { stage := "error", message := "Error: " ++ msg,
      progress_percent := s.progress, brand_id := none }
  { s with
    status := "failed"
    errMsg := some msg
    events := s.events ++ [ev] }

/-- One full extraction request as the server processes it: the pipeline
run against the session's `onProgress` sink, followed by the `.then` (or,
on rejection, `.catch`) handler. -/
def runExtractionSession (env : Env) : Session :=
  match extractBrand env serverSink initialSession with
  | .ok (r, s) => thenHandler s r
  | .error (m, s) => catchHandler s m

/-- One extraction request to `POST /api/extract` as the session-id
allocator sees it: the request payload plus the value `Date.now()`
evaluates to when the request is handled. -/
structure ExtractRequest where
  url : String
  adjectives : List String
  now_ms : Nat
deriving Repr, DecidableEq, Inhabited

/-- Translation of the session-id allocation
`const sessionId = Date.now().toString()`. -/
def sessionIdFor (r : ExtractRequest) : String :=
  toString r.now_ms

/-! ## Helper definitions used to state the verified properties -/

/-- A trivial, never-throwing progress sink (used where a property does not
mention the observer). -/
def unitSink : Unit → String → String → Except String Unit :=
  fun _ _ _ => .ok ()

/-- One pipeline run against the server's session sink. -/
def runPipeline (env : Env) :
    Except (String × Session) (ExtractResult × Session) :=
  extractBrand env serverSink initialSession

/-- Whether the run resolved with the success object. -/
def runOk (env : Env) : Bool :=
  match runPipeline env with
  | .ok (.ok _, _) => true
  | _ => false

/-- The success payload of a run (default-valued when the run did not
succeed; only consulted under a `runOk` hypothesis). -/
def successOf (env : Env) : SuccessData :=
  match runPipeline env with
  | .ok (.ok d, _) => d
  | _ => default

/-- The error message of a failed (but resolved) run. -/
def errorOf (env : Env) : Option String :=
  match runPipeline env with
  | .ok (.failed e _, _) => some e
  | _ => none

/-- The stage entries accumulated by a failed run. -/
def failedStagesOf (env : Env) : List StageEntry :=
  match runPipeline env with
  | .ok (.failed _ st, _) => st
  | _ => []

/-- The specification produced by the synthesis stage of a run (before any
refinement), reconstructed from the run's inputs. -/
def synthSpecOf (env : Env) : Option BrandSpec :=
  match env.analyze with
  | .ok brandTokens _ _ =>
    match synthesizeBrandSpec env.validateSpec brandTokens
        (runMetadata env.url env.adjectives env.dateTag env.uuid8) with
    | .done _ spec _ _ => some spec
    | .failure _ _ => none
  | .fail _ _ _ => none

/-- Boolean non-decreasing check on a list of percentages. -/
def nondecreasing : List Nat → Bool
  | [] => true
  | [_] => true
  | a :: b :: t => decide (a ≤ b) && nondecreasing (b :: t)

/-- Tokens (input plus output) recorded in the metrics of the named trace
entry; `0` when the entry is absent or carries no metrics. -/
def entryTokens (stages : List StageEntry) (nm : String) : Nat :=
  match (stages.find? (fun e => e.name = nm)).bind (fun e => e.metrics) with
  | some m => m.tokens_input + m.tokens_output
  | none => 0

/-- Input tokens recorded in the metrics of the named trace entry. -/
def entryTokensIn (stages : List StageEntry) (nm : String) : Nat :=
  match (stages.find? (fun e => e.name = nm)).bind (fun e => e.metrics) with
  | some m => m.tokens_input
  | none => 0

/-- Output tokens recorded in the metrics of the named trace entry. -/
def entryTokensOut (stages : List StageEntry) (nm : String) : Nat :=
  match (stages.find? (fun e => e.name = nm)).bind (fun e => e.metrics) with
  | some m => m.tokens_output
  | none => 0

/-! ## Decimal decoding (inverse of `Nat.repr`, for session-id facts) -/

/-- Decimal value of an ASCII digit character. -/
def decDigit? (c : Char) : Option Nat :=
  if c.isDigit then some (c.toNat - 48) else none

/-- One step of big-endian decimal decoding. -/
def decAux (o : Option Nat) (c : Char) : Option Nat :=
  match o, decDigit? c with
  | some a, some d => some (10 * a + d)
  | _, _ => none

/-- Decodes a decimal string back to a number (`none` on a non-digit). -/
def decodeDecimal (s : String) : Option Nat :=
  s.data.foldl decAux (some 0)

/-! ## Concrete data used by witnesses and counterexamples -/

/-- A brand-token payload with every block absent. -/
def emptyTokens : BrandTokens :=
  { brand_essence := none, colors := none, typography := none, spacing := none,
    effects := none, components := none, layout_patterns := none,
    accessibility_observations := none, notes := none }

/-- A brand-token payload carrying one minimal component. -/
def oneComponentTokens : BrandTokens :=
  let comp : RawComponent :=
    { name := "Primary Button", category := some "button", description := none,
      visual_properties := none, states_observed := none, usage_notes := none,
      example_html := none }
  { emptyTokens with components := some [comp] }

/-- A validator that accepts everything. -/
def okValidator : BrandSpec → ValidationResult :=
  fun _ => { valid := true, errors := [] }

/-- An evaluation validator that accepts everything. -/
def okEvalValidator : Evaluation → ValidationResult :=
  fun _ => { valid := true, errors := [] }

/-- A validator that rejects everything with one repairable
`/components/0` `required` error. -/
def rejectValidator : BrandSpec → ValidationResult :=
  fun _ => { valid := false,
             errors := [{ instancePath := ["components", "0"], keyword := "required" }] }

/-- An evaluation reply with a given overall score (no dimensions or
recommendations; the adapter also volunteers a wrong band, which the stage
must ignore). -/
def respWithScore (sc : Rat) : EvalResponse :=
  { overall_score := sc, dimensions := [], recommendations := [],
    quality_band := some "excellent" }

/-- A baseline environment in which every collaborator succeeds and the
evaluation score is `3.8` (below the refinement gate). -/
def baseEnv : Env :=
  { url := "https://www.stripe.com/pricing", adjectives := ["bold"],
    dateTag := "2026_10_12", uuid8 := "abcd1234",
    capture := .ok 4,
    analyze := .ok emptyTokens 100 50,
    evalCall := .ok (respWithScore 3.8) 30 20,
    refineCall := .ok default 10 5,
    validateSpec := okValidator,
    validateEvalSchema := okEvalValidator }

/-- Environment for the refinement-non-regression witness: score below the
gate, refinement call succeeds and its output validates. -/
def envC1w : Env := baseEnv

/-- Environment with a failing capture stage. -/
def envCaptureFail : Env :=
  { baseEnv with capture := .fail "net::ERR_NAME_NOT_RESOLVED" }

/-- Environment with a failing analysis stage. -/
def envAnalyzeFail : Env :=
  { baseEnv with analyze := .fail "Could not extract valid JSON from Claude response" 7 0 }

/-- Environment whose evaluation score is in the excellent band, so the
refinement stage is skipped. -/
def envSkip : Env :=
  { baseEnv with evalCall := .ok (respWithScore 4.7) 30 20 }

/-- Environment for the cost-rounding counterexample: one input token in
total, so the exact rate formula gives `3e-6`, which the stored
four-decimal rounding turns into `0`. -/
def envCost : Env :=
  { baseEnv with
    analyze := .ok emptyTokens 1 0,
    evalCall := .ok (respWithScore 4.7) 0 0 }

/-- A progress sink that always throws. -/
def badSink : Unit → String → String → Except String Unit :=
  fun _ _ _ => .error "sink failure"

/-- Two distinct extraction requests handled within the same millisecond. -/
def reqA : ExtractRequest :=
  { url := "https://a.example", adjectives := [], now_ms := 1712345 }

/-- The second of the two colliding requests. -/
def reqB : ExtractRequest :=
  { url := "https://b.example", adjectives := [], now_ms := 1712345 }

/-- The evaluation stage result at the concrete witness input. -/
def evalStageW : EvalStageResult :=
  evaluateBrandSpec okEvalValidator default (.ok (respWithScore 3.8) 30 20)

/-- The evaluation object of `evalStageW`. -/
def evW : Evaluation :=
  match evalStageW with
  | .done ev _ => ev
  | .failure _ _ => default

/-- The metrics of `evalStageW`. -/
def mW : Metrics :=
  match evalStageW with
  | .done _ m => m
  | .failure _ m => m

/-- Concrete specification metadata used by witnesses. -/
def mdW : SpecMetadata :=
  { brand_id := "stripe_2026_10_12_abcd1234", brand_name := "stripe",
    source_url := "https://www.stripe.com/pricing", adjectives := [] }

/-- The session state right after the pipeline (run against the server
sink) resolves, for the failing-capture environment. -/
def failSessionW : Session :=
  match runPipeline envCaptureFail with
  | .ok (_, s) => s
  | .error (_, s) => s

/-- The ghost stage list of the failing-capture run. -/
def failStagesW : List StageEntry := failedStagesOf envCaptureFail

/-- The error message of the failing-capture run. -/
def failMsgW : String := (errorOf envCaptureFail).getD ""

/-- Whether an `Except` computation resolved (`ok`) rather than rejected
(`error`). -/
def resolved {ε α : Type} : Except ε α → Bool
  | .ok _ => true
  | .error _ => false

/-! ## Theorems -/

/-- The evaluation repair never touches the `quality_band` field. -/
theorem fixEvaluationIssues_quality_band (errors : List ValError) (ev : Evaluation) :
    (fixEvaluationIssues ev errors).quality_band = ev.quality_band := by
  unfold fixEvaluationIssues
  induction errors generalizing ev with
  | nil => rfl
  | cons e es ih =>
    simp only [List.foldl_cons]
    rw [ih]
    split <;> split <;> rfl

/-- C7: `quality_band` is a pure function of `overall_score` with the fixed
thresholds (≥4.5 excellent, ≥3.5 good, ≥2.5 acceptable, else poor), and the
evaluation stage computes the band by applying `getQualityBand` to the
adapter-returned `overall_score` — never taking a band from the adapter's
response (the reply's own `quality_band` field is ignored). -/
theorem quality_band_thresholds (s : Rat)
    (validateEvaluation : Evaluation → ValidationResult) (brandSpec : BrandSpec)
    (resp : EvalResponse) (tin tout : Nat) (ev : Evaluation) (m : Metrics)
    (h : evaluateBrandSpec validateEvaluation brandSpec (.ok resp tin tout) =
      .done ev m) :
    ((4.5 ≤ s → getQualityBand s = "excellent") ∧
      (3.5 ≤ s → s < 4.5 → getQualityBand s = "good") ∧
      (2.5 ≤ s → s < 3.5 → getQualityBand s = "acceptable") ∧
      (s < 2.5 → getQualityBand s = "poor")) ∧
    ev.quality_band = getQualityBand resp.overall_score := by
  constructor
  · unfold getQualityBand
    refine ⟨fun h45 => ?_, fun h35 h45 => ?_, fun h25 h35 => ?_, fun h25 => ?_⟩
    · rw [if_pos (by exact_mod_cast h45)]
    · rw [if_neg (by exact_mod_cast not_le.mpr h45), if_pos (by exact_mod_cast h35)]
    · rw [if_neg (by exact_mod_cast not_le.mpr (lt_trans h35 (by norm_num))),
        if_neg (by exact_mod_cast not_le.mpr h35), if_pos (by exact_mod_cast h25)]
    · rw [if_neg (by exact_mod_cast not_le.mpr (lt_trans h25 (by norm_num))),
        if_neg (by exact_mod_cast not_le.mpr (lt_trans h25 (by norm_num))),
        if_neg (by exact_mod_cast not_le.mpr h25)]
  · unfold evaluateBrandSpec at h
    simp only [EvalStageResult.done.injEq] at h
    obtain ⟨hev, -⟩ := h
    subst hev
    split
    · rfl
    · exact fixEvaluationIssues_quality_band ..

/-- Witness for `quality_band_thresholds` at a concrete score and a
concrete evaluation-stage run. -/
theorem quality_band_thresholds_witness :
    getQualityBand 4.6 = "excellent" ∧
    evW.quality_band = getQualityBand ((respWithScore 3.8).overall_score) := by
  have h := quality_band_thresholds 4.6 okEvalValidator default
    (respWithScore 3.8) 30 20 evW mW rfl
  exact ⟨h.1.1 (by norm_num), h.2⟩

/-- Decoding inverts the digit character of a single digit. -/
theorem decDigit?_digitChar : ∀ n < 10, decDigit? (Nat.digitChar n) = some n := by
  decide

/-- Decoding inverts `Nat.toDigitsCore` at base 10: feeding the produced
digit characters into the decimal decoder shifts the accumulator by the
number of digits and adds the encoded value. -/
theorem foldl_decAux_toDigitsCore (fuel : Nat) :
    ∀ (n a : Nat) (ds : List Char), n < 10 ^ fuel →
      ∃ k, List.foldl decAux (some a) (Nat.toDigitsCore 10 fuel n ds) =
        List.foldl decAux (some (a * 10 ^ k + n)) ds := by
  induction fuel with
  | zero =>
    intro n a ds h
    refine ⟨0, ?_⟩
    have hn : n = 0 := by simpa using h
    subst hn
    simp [Nat.toDigitsCore]
  | succ f ih =>
    intro n a ds h
    by_cases hdiv : n / 10 = 0
    · refine ⟨1, ?_⟩
      have hn : n < 10 := (Nat.div_eq_zero_iff (by norm_num)).mp hdiv
      have hmod : n % 10 = n := Nat.mod_eq_of_lt hn
      simp only [Nat.toDigitsCore, hdiv, if_true, List.foldl_cons]
      have hdec : decAux (some a) (Nat.digitChar (n % 10)) = some (10 * a + n % 10) := by
        unfold decAux
        rw [decDigit?_digitChar (n % 10) (Nat.mod_lt n (by norm_num))]
      rw [hdec, hmod]
      ring_nf
    · have hlt : n / 10 < 10 ^ f := by
        refine Nat.div_lt_of_lt_mul ?_
        calc n < 10 ^ (f + 1) := h
          _ = 10 * 10 ^ f := by ring
      obtain ⟨k, hk⟩ := ih (n / 10) a (Nat.digitChar (n % 10) :: ds) hlt
      refine ⟨k + 1, ?_⟩
      simp only [Nat.toDigitsCore, hdiv, if_false]
      rw [hk]
      simp only [List.foldl_cons]
      have hdec : decAux (some (a * 10 ^ k + n / 10)) (Nat.digitChar (n % 10)) =
          some (10 * (a * 10 ^ k + n / 10) + n % 10) := by
        unfold decAux
        rw [decDigit?_digitChar (n % 10) (Nat.mod_lt n (by norm_num))]
      rw [hdec]
      have : 10 * (a * 10 ^ k + n / 10) + n % 10 = a * 10 ^ (k + 1) + n := by
        have := Nat.div_add_mod n 10
        ring_nf
        omega
      rw [this]

/-- Decoding inverts the decimal rendering of a natural number. -/
theorem decodeDecimal_toString (n : Nat) : decodeDecimal (toString n) = some n := by
  show List.foldl decAux (some 0) (Nat.toDigits 10 n) = some n
  have hlt : n < 10 ^ (n + 1) :=
    lt_of_lt_of_le (Nat.lt_pow_self (by norm_num) n)
      (Nat.pow_le_pow_right (by norm_num) (Nat.le_succ n))
  obtain ⟨k, hk⟩ := foldl_decAux_toDigitsCore (n + 1) n 0 [] hlt
  simpa using hk

/-- C9 counterexample: two distinct extraction requests handled in the same
millisecond are allocated the same session id — `Date.now().toString()`
depends only on the clock value, so ids are not unique per request. -/
theorem session_id_collision : reqA ≠ reqB ∧ sessionIdFor reqA = sessionIdFor reqB := by
  constructor
  · decide
  · rfl

/-- C9 (amended): two extraction requests that observe distinct `Date.now()`
values are allocated distinct session ids. -/
theorem session_ids_distinct_for_distinct_instants (r1 r2 : ExtractRequest)
    (h : r1.now_ms ≠ r2.now_ms) : sessionIdFor r1 ≠ sessionIdFor r2 := by
  intro heq
  apply h
  have hdec := congrArg decodeDecimal heq
  unfold sessionIdFor at hdec
  rw [decodeDecimal_toString, decodeDecimal_toString] at hdec
  exact Option.some.inj hdec

/-- Witness for `session_ids_distinct_for_distinct_instants` at two
concrete requests one millisecond apart. -/
theorem session_ids_distinct_witness :
    sessionIdFor { url := "https://a.example", adjectives := [], now_ms := 1712345 } ≠
    sessionIdFor { url := "https://a.example", adjectives := [], now_ms := 1712346 } :=
  session_ids_distinct_for_distinct_instants _ _ (by decide)

/-- Monadic bind on `Except` reduces on `ok`. -/
theorem except_ok_bind {ε α β : Type} (a : α) (f : α → Except ε β) :
    (Except.ok a >>= f : Except ε β) = f a := rfl

/-- Map on `Except` reduces on `ok`. -/
theorem except_map_ok {ε α β : Type} (a : α) (f : α → β) :
    ((Except.ok a : Except ε α).map f) = .ok (f a) := rfl

/-- Repairing an in-range component index never throws and preserves the
component count. -/
theorem fixComponentAt_ok (comps : List Component) (i : Nat)
    (hi : i < comps.length) :
    ∃ cs, fixComponentAt comps i = .ok cs ∧ cs.length = comps.length := by
  unfold fixComponentAt
  rw [List.get?_eq_get hi]
  exact ⟨_, rfl, by simp⟩

/-- When every `/components/<i>` `required` error reported by the validator
points at an existing component — which is the case for Ajv, whose error
paths point into the validated instance — the repair pass completes without
throwing and preserves the number of components. -/
theorem fixValidationIssues_ok (errors : List ValError) :
    ∀ spec : BrandSpec,
      (∀ e ∈ errors, ∀ i, errorComponentIndex e = some i →
        i < spec.components.length) →
      ∃ spec', fixValidationIssues spec errors = .ok spec' ∧
        spec'.components.length = spec.components.length := by
  induction errors with
  | nil => exact fun spec _ => ⟨spec, rfl, rfl⟩
  | cons e es ih =>
    intro spec h
    unfold fixValidationIssues
    simp only [List.foldlM_cons]
    cases hidx : errorComponentIndex e with
    | none =>
      obtain ⟨spec', h1, h2⟩ := ih spec (fun e' he' => h e' (List.mem_cons_of_mem _ he'))
      refine ⟨spec', ?_, h2⟩
      simpa [fixValidationIssues, hidx] using h1
    | some i =>
      have hi : i < spec.components.length := h e (List.mem_cons_self _ _) i hidx
      obtain ⟨cs, hfix, hlen⟩ := fixComponentAt_ok spec.components i hi
      obtain ⟨spec', h1, h2⟩ := ih { spec with components := cs }
        (fun e' he' j hj => by
          have := h e' (List.mem_cons_of_mem _ he') j hj
          simpa [hlen] using this)
      refine ⟨spec', ?_, by simpa using h2.trans hlen⟩
      simp only [hidx, hfix, except_map_ok, except_ok_bind]
      simpa [fixValidationIssues] using h1

/-- C5: for every raw-token payload whose mapped specification fails schema
validation (with the validator's `/components/<i>` errors pointing at
existing components, as Ajv's do), synthesis applies the path-keyed repairs,
re-validates exactly once (two validation calls in total), and returns a
non-failed `StageResult` of status `warning` that carries the specification
together with a warning recording the validation violations — the pipeline
is not aborted. -/
theorem synthesis_never_hard_fails (validate : BrandSpec → ValidationResult)
    (tokens : BrandTokens) (md : SpecMetadata)
    (hinvalid : (validate (buildBrandSpec tokens md).1).valid = false)
    (hidx : ∀ e ∈ (validate (buildBrandSpec tokens md).1).errors, ∀ i,
      errorComponentIndex e = some i →
      i < (buildBrandSpec tokens md).1.components.length) :
    ∃ spec warnings,
      synthesizeBrandSpec validate tokens md = .done .warning spec warnings 2 ∧
      ("Schema validation issues: " ++
          toString (validate (buildBrandSpec tokens md).1).errors.length ++
          " errors found") ∈ warnings ∧
      Status.warning ≠ Status.failed := by
  obtain ⟨spec', hfix, -⟩ :=
    fixValidationIssues_ok (validate (buildBrandSpec tokens md).1).errors
      (buildBrandSpec tokens md).1 hidx
  refine ⟨spec', (buildBrandSpec tokens md).2 ++
    ["Schema validation issues: " ++
      toString (validate (buildBrandSpec tokens md).1).errors.length ++
      " errors found"], ?_, by simp, by decide⟩
  unfold synthesizeBrandSpec
  rw [show buildBrandSpec tokens md =
      ((buildBrandSpec tokens md).1, (buildBrandSpec tokens md).2) from rfl]
  simp only [hinvalid, Bool.false_eq_true, if_false, hfix]
  simp

/-- Witness for `synthesis_never_hard_fails`: a one-component payload and a
validator that reports one repairable `/components/0` `required` error. -/
theorem synthesis_never_hard_fails_witness :
    (rejectValidator (buildBrandSpec oneComponentTokens mdW).1).valid = false ∧
    ∃ spec warnings,
      synthesizeBrandSpec rejectValidator oneComponentTokens mdW =
        .done .warning spec warnings 2 ∧
      ("Schema validation issues: " ++
          toString (rejectValidator (buildBrandSpec oneComponentTokens mdW).1).errors.length ++
          " errors found") ∈ warnings ∧
      Status.warning ≠ Status.failed := by
  refine ⟨rfl, synthesis_never_hard_fails rejectValidator oneComponentTokens mdW rfl ?_⟩
  intro e he i hi
  simp only [rejectValidator, List.mem_singleton] at he
  subst he
  have h0 : errorComponentIndex
      { instancePath := ["components", "0"], keyword := "required" } = some 0 := by
    decide
  rw [h0] at hi
  obtain rfl : (0 : Nat) = i := Option.some.inj hi
  decide

/-- C4: when the capture stage or the analysis stage fails, the run aborts
with no synthesize, evaluate or refine stage entry in the accumulated trace,
and the session ends with status `failed`. -/
theorem stage_failure_short_circuit (env : Env)
    (h : (∃ m, env.capture = .fail m) ∨ (∃ m ti tu, env.analyze = .fail m ti tu)) :
    runOk env = false ∧
    (failedStagesOf env).all (fun e =>
      e.name ≠ "synthesize" && e.name ≠ "evaluate" && e.name ≠ "refine") = true ∧
    (runExtractionSession env).status = "failed" := by
  obtain ⟨url, adjs, dt, u8, cap, ana, ec, rc, vs, ve⟩ := env
  cases cap with
  | fail m =>
    simp [runOk, runPipeline, extractBrand, extractBody, serverSink,
      onProgressHandler, jsProgressOr, stageProgress, runExtractionSession,
      thenHandler, failedStagesOf, initialSession]
  | ok n =>
    rcases h with ⟨m, hcap⟩ | ⟨m, ti, tu, hana⟩
    · exact absurd hcap (by simp)
    · subst hana
      simp [runOk, runPipeline, extractBrand, extractBody, serverSink,
        onProgressHandler, jsProgressOr, stageProgress, runExtractionSession,
        thenHandler, failedStagesOf, initialSession]

/-- Witness for `stage_failure_short_circuit` at a concrete failing
capture. -/
theorem stage_failure_short_circuit_witness :
    runOk envCaptureFail = false ∧
    (failedStagesOf envCaptureFail).all (fun e =>
      e.name ≠ "synthesize" && e.name ≠ "evaluate" && e.name ≠ "refine") = true ∧
    (runExtractionSession envCaptureFail).status = "failed" :=
  stage_failure_short_circuit envCaptureFail
    (.inl ⟨"net::ERR_NAME_NOT_RESOLVED", rfl⟩)

/-- C6: when the evaluation score is at least 4.5, the refine stage entry
recorded in the trace has status `skipped` with zero input and output
tokens, the final specification is the synthesized (pre-refinement) one,
and no refinement result is attached. -/
theorem skip_refine_gate (env : Env) (hok : runOk env = true)
    (hscore : (successOf env).evaluation.overall_score ≥ 4.5) :
    ((successOf env).stages.filter (fun e => e.name = "refine")) =
      [{ name := "refine", status := .skipped,
         metrics := some { tokens_input := 0, tokens_output := 0,
                           api_calls := none, improvements_made := some 0 } }] ∧
    some (successOf env).brand_spec = synthSpecOf env ∧
    (successOf env).refinement = none := by
  obtain ⟨url, adjs, dt, u8, cap, ana, ec, rc, vs, ve⟩ := env
  cases cap with
  | fail m =>
    simp [runOk, runPipeline, extractBrand, extractBody, serverSink] at hok
  | ok n =>
  cases ana with
  | fail m ti tu =>
    simp [runOk, runPipeline, extractBrand, extractBody, serverSink] at hok
  | ok tok ti tu =>
  cases hsyn : synthesizeBrandSpec vs tok (runMetadata url adjs dt u8) with
  | failure msg w =>
    simp [runOk, runPipeline, extractBrand, extractBody, serverSink, hsyn] at hok
  | done st spec warns vc =>
  cases ec with
  | fail m ei eo =>
    simp [runOk, runPipeline, extractBrand, extractBody, serverSink, hsyn,
      evaluateBrandSpec] at hok
  | ok resp ei eo =>
  cases hev : evaluateBrandSpec ve spec (.ok resp ei eo) with
  | failure msg m => simp [evaluateBrandSpec] at hev
  | done ev m =>
  by_cases hc : ev.overall_score < (4.5 : Rat)
  · exfalso
    cases rc with
    | fail m2 ri ro =>
      simp only [successOf, runPipeline, extractBrand, extractBody, serverSink,
        hsyn, hev, refineBrandSpec, finishRun, if_pos hc,
        if_neg (not_le.mpr hc)] at hscore
      exact absurd hscore (not_le.mpr hc)
    | ok refined ri ro =>
      by_cases hvr : (vs refined).valid = true
      · simp only [successOf, runPipeline, extractBrand, extractBody, serverSink,
          hsyn, hev, refineBrandSpec, finishRun, if_pos hc,
          if_neg (not_le.mpr hc), hvr, if_true] at hscore
        exact absurd hscore (not_le.mpr hc)
      · simp only [successOf, runPipeline, extractBrand, extractBody, serverSink,
          hsyn, hev, refineBrandSpec, finishRun, if_pos hc,
          if_neg (not_le.mpr hc), if_neg hvr] at hscore
        exact absurd hscore (not_le.mpr hc)
  · simp [successOf, runPipeline, extractBrand, extractBody, serverSink,
      hsyn, hev, finishRun, if_neg hc, synthSpecOf]

/-- Witness for `skip_refine_gate` at a concrete run scoring 4.7. -/
theorem skip_refine_gate_witness :
    runOk envSkip = true ∧
    (successOf envSkip).evaluation.overall_score ≥ 4.5 ∧
    some (successOf envSkip).brand_spec = synthSpecOf envSkip := by
  have h1 : runOk envSkip = true := by with_unfolding_all rfl
  have h2 : (successOf envSkip).evaluation.overall_score ≥ 4.5 := by
    with_unfolding_all decide
  exact ⟨h1, h2, (skip_refine_gate envSkip h1 h2).2.1⟩

/-- C1: for every successful run whose evaluation score is below 4.5, the
final specification is either exactly the synthesized specification, or a
refined output that itself passed schema validation; when the refinement
call errors or its output fails validation, the synthesized specification
is kept. -/
theorem refinement_non_regression (env : Env) (hok : runOk env = true)
    (hscore : (successOf env).evaluation.overall_score < 4.5) :
    (some (successOf env).brand_spec = synthSpecOf env ∨
      ((env.validateSpec (successOf env).brand_spec).valid = true ∧
        ∃ ti tu, env.refineCall = .ok (successOf env).brand_spec ti tu)) ∧
    (∀ msg ti tu, env.refineCall = .fail msg ti tu →
      some (successOf env).brand_spec = synthSpecOf env) ∧
    (∀ sp ti tu, env.refineCall = .ok sp ti tu →
      (env.validateSpec sp).valid = false →
      some (successOf env).brand_spec = synthSpecOf env) := by
  obtain ⟨url, adjs, dt, u8, cap, ana, ec, rc, vs, ve⟩ := env
  cases cap with
  | fail m =>
    simp [runOk, runPipeline, extractBrand, extractBody, serverSink] at hok
  | ok n =>
  cases ana with
  | fail m ti tu =>
    simp [runOk, runPipeline, extractBrand, extractBody, serverSink] at hok
  | ok tok ti tu =>
  cases hsyn : synthesizeBrandSpec vs tok (runMetadata url adjs dt u8) with
  | failure msg w =>
    simp [runOk, runPipeline, extractBrand, extractBody, serverSink, hsyn] at hok
  | done st spec warns vc =>
  cases ec with
  | fail m ei eo =>
    simp [runOk, runPipeline, extractBrand, extractBody, serverSink, hsyn,
      evaluateBrandSpec] at hok
  | ok resp ei eo =>
  cases hev : evaluateBrandSpec ve spec (.ok resp ei eo) with
  | failure msg m => simp [evaluateBrandSpec] at hev
  | done ev m =>
  by_cases hc : ev.overall_score < (4.5 : Rat)
  · cases rc with
    | fail m2 ri ro =>
      simp [successOf, runPipeline, extractBrand, extractBody, serverSink,
        hsyn, hev, refineBrandSpec, finishRun, if_pos hc,
        if_neg (not_le.mpr hc), synthSpecOf]
    | ok refined ri ro =>
      by_cases hvr : (vs refined).valid = true
      · simp [successOf, runPipeline, extractBrand, extractBody, serverSink,
          hsyn, hev, refineBrandSpec, finishRun, if_pos hc,
          if_neg (not_le.mpr hc), hvr, synthSpecOf]
      · simp [successOf, runPipeline, extractBrand, extractBody, serverSink,
          hsyn, hev, refineBrandSpec, finishRun, if_pos hc,
          if_neg (not_le.mpr hc), hvr, synthSpecOf]
  · exfalso
    simp only [successOf, runPipeline, extractBrand, extractBody, serverSink,
      hsyn, hev, finishRun, if_neg hc] at hscore
    exact hc hscore

/-- Witness for `refinement_non_regression` at a concrete run scoring 3.8
whose refinement succeeds and validates. -/
theorem refinement_non_regression_witness :
    runOk envC1w = true ∧
    (successOf envC1w).evaluation.overall_score < 4.5 ∧
    (some (successOf envC1w).brand_spec = synthSpecOf envC1w ∨
      ((envC1w.validateSpec (successOf envC1w).brand_spec).valid = true ∧
        ∃ ti tu, envC1w.refineCall = .ok (successOf envC1w).brand_spec ti tu)) := by
  have h1 : runOk envC1w = true := by with_unfolding_all rfl
  have h2 : (successOf envC1w).evaluation.overall_score < 4.5 := by
    with_unfolding_all decide
  exact ⟨h1, h2, (refinement_non_regression envC1w h1 h2).1⟩

/-- C8 (amended): for every successful run, the summary's `total_tokens` is
the sum of input plus output tokens of exactly the model-call stages as
recorded in the trace (analyze, evaluate, and refine — a skipped refine
contributing zero; capture and synthesize carry no call metrics), and the
summary's estimated cost is the summed input tokens at $3 per million plus
the summed output tokens at $15 per million, rounded to four decimal
places. -/
theorem trace_accounting (env : Env) (hok : runOk env = true) :
    (successOf env).summary.total_tokens =
      entryTokens (successOf env).stages "analyze" +
      entryTokens (successOf env).stages "evaluate" +
      entryTokens (successOf env).stages "refine" ∧
    (((successOf env).stages.find? (fun e => e.name = "capture")).bind
      (fun e => e.metrics)) = none ∧
    (((successOf env).stages.find? (fun e => e.name = "synthesize")).bind
      (fun e => e.metrics)) = none ∧
    (successOf env).summary.estimated_cost_usd =
      roundTo4 (((entryTokensIn (successOf env).stages "analyze" +
          entryTokensIn (successOf env).stages "evaluate" +
          entryTokensIn (successOf env).stages "refine" : Nat) : Rat) / 1000000 * 3 +
        ((entryTokensOut (successOf env).stages "analyze" +
          entryTokensOut (successOf env).stages "evaluate" +
          entryTokensOut (successOf env).stages "refine" : Nat) : Rat) / 1000000 * 15) := by
  obtain ⟨url, adjs, dt, u8, cap, ana, ec, rc, vs, ve⟩ := env
  cases cap with
  | fail m =>
    simp [runOk, runPipeline, extractBrand, extractBody, serverSink] at hok
  | ok n =>
  cases ana with
  | fail m ti tu =>
    simp [runOk, runPipeline, extractBrand, extractBody, serverSink] at hok
  | ok tok ti tu =>
  cases hsyn : synthesizeBrandSpec vs tok (runMetadata url adjs dt u8) with
  | failure msg w =>
    simp [runOk, runPipeline, extractBrand, extractBody, serverSink, hsyn] at hok
  | done st spec warns vc =>
  cases ec with
  | fail m ei eo =>
    simp [runOk, runPipeline, extractBrand, extractBody, serverSink, hsyn,
      evaluateBrandSpec] at hok
  | ok resp ei eo =>
  cases hev : evaluateBrandSpec ve spec (.ok resp ei eo) with
  | failure msg m => simp [evaluateBrandSpec] at hev
  | done ev m =>
  by_cases hc : ev.overall_score < (4.5 : Rat)
  · cases rc with
    | fail m2 ri ro =>
      simp [successOf, runPipeline, extractBrand, extractBody, serverSink,
        hsyn, hev, refineBrandSpec, finishRun, if_pos hc,
        if_neg (not_le.mpr hc), entryTokens, entryTokensIn, entryTokensOut]
      omega
    | ok refined ri ro =>
      by_cases hvr : (vs refined).valid = true
      · simp [successOf, runPipeline, extractBrand, extractBody, serverSink,
          hsyn, hev, refineBrandSpec, finishRun, if_pos hc,
          if_neg (not_le.mpr hc), hvr, entryTokens, entryTokensIn, entryTokensOut]
        omega
      · simp [successOf, runPipeline, extractBrand, extractBody, serverSink,
          hsyn, hev, refineBrandSpec, finishRun, if_pos hc,
          if_neg (not_le.mpr hc), hvr, entryTokens, entryTokensIn, entryTokensOut]
        omega
  · simp [successOf, runPipeline, extractBrand, extractBody, serverSink,
      hsyn, hev, finishRun, if_neg hc, entryTokens, entryTokensIn, entryTokensOut]
    omega

/-- C8 counterexample: a successful run with a single input token stores an
estimated cost of `0` — the four-decimal rounding of `3e-6` — so the
summary's estimated cost does not equal the unrounded rate formula
`input·3/10^6 + output·15/10^6` the claim states. -/
theorem estimated_cost_counterexample :
    runOk envCost = true ∧
    (successOf envCost).summary.total_tokens = 1 ∧
    (successOf envCost).summary.estimated_cost_usd = 0 ∧
    ((1 : Rat) / 1000000 * 3 + (0 : Rat) / 1000000 * 15 ≠ 0) := by
  refine ⟨by with_unfolding_all rfl, by with_unfolding_all rfl,
    by with_unfolding_all rfl, by norm_num⟩

/-- Witness for `trace_accounting` at a concrete successful run. -/
theorem trace_accounting_witness :
    runOk baseEnv = true ∧
    (successOf baseEnv).summary.total_tokens =
      entryTokens (successOf baseEnv).stages "analyze" +
      entryTokens (successOf baseEnv).stages "evaluate" +
      entryTokens (successOf baseEnv).stages "refine" := by
  have h1 : runOk baseEnv = true := by with_unfolding_all rfl
  exact ⟨h1, (trace_accounting baseEnv h1).1⟩

/-- C2 (amended): when a fatal pipeline stage fails (capture, analyze,
synthesize or evaluate — so the run resolves with `success: false`), the
session transitions to `failed`; the pipeline appends an `error`-stage
event carrying the message "Extraction failed: " plus the triggering
error's message, and exactly one event is appended after it — the terminal
event, which has stage `complete` (not `error`), the same failure message,
and progress 100. -/
theorem failed_run_terminal_events (env : Env) (msg : String)
    (stages : List StageEntry) (s' : Session)
    (hrun : runPipeline env = .ok (.failed msg stages, s')) :
    (runExtractionSession env).status = "failed" ∧
    (runExtractionSession env).events.getLast? =
      some { stage := "complete", message := "Extraction failed: " ++ msg,
             progress_percent := 100, brand_id := none } ∧
    ((runExtractionSession env).events.dropLast.getLast?).map (fun e => e.stage) =
      some "error" ∧
    ((runExtractionSession env).events.dropLast.getLast?).map (fun e => e.message) =
      some ("Extraction failed: " ++ msg) := by
  unfold runPipeline extractBrand at hrun
  cases hbody : extractBody env serverSink initialSession with
  | ok p =>
    rw [hbody] at hrun
    obtain ⟨d, s⟩ := p
    simp at hrun
  | error t =>
    obtain ⟨m2, st2, s2⟩ := t
    rw [hbody] at hrun
    simp only [serverSink, Except.ok.injEq, Prod.mk.injEq,
      ExtractResult.failed.injEq] at hrun
    obtain ⟨⟨hm, hst⟩, hs⟩ := hrun
    subst hm
    subst hs
    unfold runExtractionSession extractBrand
    rw [hbody]
    simp [serverSink, thenHandler, onProgressHandler, jsProgressOr, stageProgress]

/-- C2 counterexample: a failing-capture run whose session ends `failed`,
yet the last appended event has stage `complete`, not `error` — the
`error`-stage event is not the last event of the log. -/
theorem terminal_event_stage_counterexample :
    errorOf envCaptureFail =
      some "Capture stage failed: net::ERR_NAME_NOT_RESOLVED" ∧
    (runExtractionSession envCaptureFail).status = "failed" ∧
    ((runExtractionSession envCaptureFail).events.getLast?).map
      (fun e => e.stage) = some "complete" ∧
    ("complete" : String) ≠ "error" := by
  refine ⟨by with_unfolding_all rfl, by with_unfolding_all rfl,
    by with_unfolding_all rfl, by decide⟩

/-- Witness for `failed_run_terminal_events` at the failing-capture run. -/
theorem failed_run_terminal_events_witness :
    runPipeline envCaptureFail =
      .ok (.failed failMsgW failStagesW, failSessionW) ∧
    (runExtractionSession envCaptureFail).status = "failed" ∧
    (runExtractionSession envCaptureFail).events.getLast? =
      some { stage := "complete", message := "Extraction failed: " ++ failMsgW,
             progress_percent := 100, brand_id := none } := by
  have h : runPipeline envCaptureFail =
      .ok (.failed failMsgW failStagesW, failSessionW) := by
    with_unfolding_all rfl
  have hth := failed_run_terminal_events envCaptureFail failMsgW failStagesW
    failSessionW h
  exact ⟨h, hth.1, hth.2.1⟩

/-- C10 (amended): for every environment — every input and every failure
mode of any stage or adapter — and every progress sink that does not itself
throw, `extractBrand` resolves with a result object rather than letting an
exception propagate. -/
theorem extract_brand_total_for_nonthrowing_sink {σ : Type} (env : Env)
    (sink : σ → String → String → Except String σ) (s0 : σ)
    (hsink : ∀ s a b, ∃ s2, sink s a b = .ok s2) :
    resolved (extractBrand env sink s0) = true := by
  unfold extractBrand extractBody finishRun
  repeat' split
  all_goals try rfl
  all_goals
    (rename_i heq
     obtain ⟨s2, hs2⟩ := hsink _ _ _
     rw [heq] at hs2
     exact absurd hs2 (by simp))

/-- C10 counterexample: with a progress sink that throws, the `catch`
handler's own `emit('error', …)` rethrows and `extractBrand` rejects — so
the claim does not hold for every progress sink. -/
theorem extract_brand_rejects_on_throwing_sink :
    extractBrand baseEnv badSink () = .error ("sink failure", ()) ∧
    resolved (extractBrand baseEnv badSink ()) = false := by
  constructor
  · with_unfolding_all rfl
  · with_unfolding_all rfl

/-- Witness for `extract_brand_total_for_nonthrowing_sink` at a concrete
environment and the trivial sink. -/
theorem extract_brand_total_witness :
    resolved (extractBrand baseEnv unitSink ()) = true :=
  extract_brand_total_for_nonthrowing_sink baseEnv unitSink ()
    (fun _ _ _ => ⟨(), rfl⟩)

/-- C3: for every environment — hence over every execution path of the
pipeline, including the refine stage, the error path and the terminal
event — the `progress_percent` values of the session's event log are
non-decreasing in append order. -/
theorem progress_monotone (env : Env) :
    nondecreasing ((runExtractionSession env).events.map
      (fun e => e.progress_percent)) = true := by
  obtain ⟨url, adjs, dt, u8, cap, ana, ec, rc, vs, ve⟩ := env
  cases cap with
  | fail m =>
    simp [runExtractionSession, extractBrand, extractBody, serverSink,
      onProgressHandler, jsProgressOr, stageProgress, thenHandler,
      initialSession, nondecreasing]
  | ok n =>
  cases ana with
  | fail m ti tu =>
    simp [runExtractionSession, extractBrand, extractBody, serverSink,
      onProgressHandler, jsProgressOr, stageProgress, thenHandler,
      initialSession, nondecreasing]
  | ok tok ti tu =>
  cases hsyn : synthesizeBrandSpec vs tok (runMetadata url adjs dt u8) with
  | failure msg w =>
    simp [runExtractionSession, extractBrand, extractBody, serverSink,
      onProgressHandler, jsProgressOr, stageProgress, thenHandler,
      initialSession, nondecreasing, hsyn]
  | done st spec warns vc =>
  cases ec with
  | fail m ei eo =>
    simp [runExtractionSession, extractBrand, extractBody, serverSink,
      onProgressHandler, jsProgressOr, stageProgress, thenHandler,
      initialSession, nondecreasing, hsyn, evaluateBrandSpec]
  | ok resp ei eo =>
  cases hev : evaluateBrandSpec ve spec (.ok resp ei eo) with
  | failure msg m => simp [evaluateBrandSpec] at hev
  | done ev m =>
  by_cases hc : ev.overall_score < (4.5 : Rat)
  · cases rc with
    | fail m2 ri ro =>
      simp [runExtractionSession, extractBrand, extractBody, serverSink,
        onProgressHandler, jsProgressOr, stageProgress, thenHandler,
        initialSession, nondecreasing, hsyn, hev, refineBrandSpec, finishRun,
        if_pos hc, if_neg (not_le.mpr hc)]
    | ok refined ri ro =>
      by_cases hvr : (vs refined).valid = true
      · simp [runExtractionSession, extractBrand, extractBody, serverSink,
          onProgressHandler, jsProgressOr, stageProgress, thenHandler,
          initialSession, nondecreasing, hsyn, hev, refineBrandSpec, finishRun,
          if_pos hc, if_neg (not_le.mpr hc), hvr]
      · simp [runExtractionSession, extractBrand, extractBody, serverSink,
          onProgressHandler, jsProgressOr, stageProgress, thenHandler,
          initialSession, nondecreasing, hsyn, hev, refineBrandSpec, finishRun,
          if_pos hc, if_neg (not_le.mpr hc), hvr]
  · simp [runExtractionSession, extractBrand, extractBody, serverSink,
      onProgressHandler, jsProgressOr, stageProgress, thenHandler,
      initialSession, nondecreasing, hsyn, hev, finishRun, if_neg hc]
